import Mathlib

/-!
Verification of the monitoring/retraining core of a fraud-detection MLOps
platform.  The Lean definitions below are a shallow embedding of the Python
services (retraining pipeline, A/B testing, alerting, baseline evaluation and
drift monitoring).  Python floats are modelled as rationals (`ℚ`), wall-clock
timestamps as integers (seconds), fallible methods as `Except`, and the
in-memory dictionaries of each service as explicit state values.
-/

namespace FraudMLOps

/-! ## Retraining pipeline: enums and `should_retrain`
Embedding of `backend/app/services/retraining_service.py`. -/

/-- Reason for retraining (enum `RetrainReason`). -/
inductive RetrainReason
  | SCHEDULED
  | DRIFT_DETECTED
  | PERFORMANCE_DEGRADATION
  | BIAS_DETECTED
  | MANUAL
  | NEW_DATA
deriving DecidableEq

/-- Retraining job status (enum `RetrainStatus`). -/
inductive RetrainStatus
  | PENDING
  | DATA_PREPARATION
  | TRAINING
  | VALIDATION
  | COMPARISON
  | COMPLETED
  | FAILED
  | REJECTED
deriving DecidableEq

/-- Embedding of `RetrainingPipeline.should_retrain`: decide whether
retraining should be triggered, with priority bias > performance > drift. -/
def should_retrain (drift_status performance_status bias_status : String) :
    Bool × RetrainReason :=
  if bias_status = "CRITICAL" then
    (true, RetrainReason.BIAS_DETECTED)
  else if performance_status = "CRITICAL" then
    (true, RetrainReason.PERFORMANCE_DEGRADATION)
  else if drift_status = "CRITICAL" then
    (true, RetrainReason.DRIFT_DETECTED)
  else if drift_status = "WARNING" ∧ performance_status = "WARNING" then
    (true, RetrainReason.DRIFT_DETECTED)
  else
    (false, RetrainReason.MANUAL)

/-- C1: `should_retrain` gives absolute priority to bias CRITICAL, then
performance CRITICAL, then drift CRITICAL; below that it triggers exactly when
both drift and performance are WARNING, and in every remaining case the
boolean is `false`. -/
theorem should_retrain_spec (d p b : String) :
    (b = "CRITICAL" → should_retrain d p b = (true, RetrainReason.BIAS_DETECTED)) ∧
    (b ≠ "CRITICAL" → p = "CRITICAL" →
      should_retrain d p b = (true, RetrainReason.PERFORMANCE_DEGRADATION)) ∧
    (b ≠ "CRITICAL" → p ≠ "CRITICAL" → d = "CRITICAL" →
      should_retrain d p b = (true, RetrainReason.DRIFT_DETECTED)) ∧
    (b ≠ "CRITICAL" → p ≠ "CRITICAL" → d ≠ "CRITICAL" →
      ((should_retrain d p b).1 = true ↔ (d = "WARNING" ∧ p = "WARNING"))) ∧
    (b ≠ "CRITICAL" → p ≠ "CRITICAL" → d ≠ "CRITICAL" →
      ¬(d = "WARNING" ∧ p = "WARNING") → (should_retrain d p b).1 = false) := by
  unfold should_retrain
  refine ⟨?_, ?_, ?_, ?_, ?_⟩ <;> intros <;> split_ifs <;> simp_all

/-- Witness for `should_retrain_spec` at concrete statuses. -/
theorem should_retrain_spec_witness :
    should_retrain "OK" "OK" "CRITICAL" = (true, RetrainReason.BIAS_DETECTED) ∧
    ((should_retrain "WARNING" "WARNING" "OK").1 = true ↔
      ("WARNING" = "WARNING" ∧ "WARNING" = "WARNING")) ∧
    (should_retrain "OK" "OK" "OK").1 = false :=
  ⟨(should_retrain_spec "OK" "OK" "CRITICAL").1 rfl,
   (should_retrain_spec "WARNING" "WARNING" "OK").2.2.2.1
     (by decide) (by decide) (by decide),
   (should_retrain_spec "OK" "OK" "OK").2.2.2.2
     (by decide) (by decide) (by decide) (by decide)⟩

/-! ## Alert service
Embedding of `backend/app/services/alert_service.py`.  The alert dictionary is
modelled as an insertion-ordered list (Python dicts iterate in insertion
order); timestamps are in seconds, so the 1-hour dedup window is 3600. -/

/-- Alert type (enum `AlertType`). -/
inductive AlertType
  | DRIFT
  | PERFORMANCE
  | BIAS
  | SYSTEM
deriving DecidableEq

/-- Alert severity (enum `AlertSeverity`). -/
inductive AlertSeverity
  | INFO
  | WARNING
  | CRITICAL
deriving DecidableEq

/-- Alert status (enum `AlertStatus`). -/
inductive AlertStatus
  | ACTIVE
  | ACKNOWLEDGED
  | RESOLVED
deriving DecidableEq

/-- Data for creating an alert (dataclass `AlertCreate`; the `details` dict is
opaque to every modelled operation and is omitted). -/
structure AlertCreate where
  model_id : String
  alert_type : AlertType
  severity : AlertSeverity
  title : String
  message : String
deriving DecidableEq

/-- Alert record (dataclass `Alert`). -/
structure Alert where
  id : String
  model_id : String
  alert_type : AlertType
  severity : AlertSeverity
  status : AlertStatus
  title : String
  message : String
  created_at : Int
  acknowledged_at : Option Int := none
  acknowledged_by : Option String := none
  resolved_at : Option Int := none
  resolution_note : Option String := none
deriving DecidableEq

/-- Class constant `AlertService.DEDUP_WINDOW_HOURS`. -/
def DEDUP_WINDOW_HOURS : Int := 1

/-- Condition checked inside the loop of `AlertService._find_duplicate`. -/
def isDuplicateOf (data : AlertCreate) (cutoff : Int) (a : Alert) : Prop :=
  a.model_id = data.model_id ∧ a.alert_type = data.alert_type ∧
  a.title = data.title ∧ a.status = AlertStatus.ACTIVE ∧ cutoff < a.created_at

instance (data : AlertCreate) (cutoff : Int) (a : Alert) :
    Decidable (isDuplicateOf data cutoff a) := by
  unfold isDuplicateOf; infer_instance

/-- The store of `AlertService` (`self._alerts`, insertion ordered). -/
structure AlertStore where
  alerts : List Alert
deriving DecidableEq

/-- Embedding of `AlertService._find_duplicate`. -/
def find_duplicate (alerts : List Alert) (data : AlertCreate) (now : Int) :
    Option Alert :=
  alerts.find? (fun a =>
    decide (isDuplicateOf data (now - 3600 * DEDUP_WINDOW_HOURS) a))

/-- The `Alert(...)` record built in the non-duplicate branch of
`AlertService.create_alert`. -/
def newAlert (data : AlertCreate) (newId : String) (now : Int) : Alert :=
  { id := newId, model_id := data.model_id, alert_type := data.alert_type,
    severity := data.severity, status := AlertStatus.ACTIVE,
    title := data.title, message := data.message, created_at := now }

/-- Embedding of `AlertService.create_alert`; `newId` stands for the fresh
`uuid4()` and `now` for `datetime.utcnow()`. -/
def create_alert (st : AlertStore) (data : AlertCreate) (newId : String)
    (now : Int) : AlertStore × Alert :=
  match find_duplicate st.alerts data now with
  | some existing => (st, existing)
  | none =>
    ({ alerts := st.alerts ++ [newAlert data newId now] }, newAlert data newId now)

/-- Embedding of `AlertService.acknowledge_alert`. -/
def acknowledge_alert (st : AlertStore) (alert_id user_id : String)
    (now : Int) : AlertStore × Option Alert :=
  match st.alerts.find? (fun a => decide (a.id = alert_id)) with
  | none => (st, none)
  | some a =>
    let a2 := { a with status := AlertStatus.ACKNOWLEDGED,
                       acknowledged_at := some now,
                       acknowledged_by := some user_id }
    ({ alerts := st.alerts.map (fun b => if b.id = alert_id then a2 else b) },
     some a2)

/-- Embedding of `AlertService.resolve_alert`. -/
def resolve_alert (st : AlertStore) (alert_id : String) (note : Option String)
    (now : Int) : AlertStore × Option Alert :=
  match st.alerts.find? (fun a => decide (a.id = alert_id)) with
  | none => (st, none)
  | some a =>
    let a2 := { a with status := AlertStatus.RESOLVED,
                       resolved_at := some now,
                       resolution_note := note }
    ({ alerts := st.alerts.map (fun b => if b.id = alert_id then a2 else b) },
     some a2)

/-- Two alerts agree on the deduplication key (model, type, title). -/
def matchesKey (data : AlertCreate) (a : Alert) : Prop :=
  a.model_id = data.model_id ∧ a.alert_type = data.alert_type ∧
  a.title = data.title

instance (data : AlertCreate) (a : Alert) : Decidable (matchesKey data a) := by
  unfold matchesKey; infer_instance

/-- Number of stored alerts with the given dedup key. -/
def countMatching (st : AlertStore) (data : AlertCreate) : Nat :=
  st.alerts.countP (fun a => decide (matchesKey data a))

theorem isDuplicateOf_matchesKey {data : AlertCreate} {cutoff : Int}
    {a : Alert} (h : isDuplicateOf data cutoff a) : matchesKey data a :=
  ⟨h.1, h.2.1, h.2.2.1⟩

theorem find_duplicate_none {alerts : List Alert} {data : AlertCreate}
    {now : Int} (h : ∀ a ∈ alerts, ¬ matchesKey data a) :
    find_duplicate alerts data now = none := by
  unfold find_duplicate
  rw [List.find?_eq_none]
  intro a ha
  simpa using fun hdup => h a ha (isDuplicateOf_matchesKey hdup)

theorem find_duplicate_append {l1 l2 : List Alert} {data : AlertCreate}
    {now : Int} (h : find_duplicate l1 data now = none) :
    find_duplicate (l1 ++ l2) data now = find_duplicate l2 data now := by
  unfold find_duplicate at *
  rw [List.find?_append, h, Option.none_or]

theorem matchesKey_iff_of_eq {d1 d2 : AlertCreate}
    (hm : d2.model_id = d1.model_id) (hty : d2.alert_type = d1.alert_type)
    (hti : d2.title = d1.title) (a : Alert) :
    matchesKey d2 a ↔ matchesKey d1 a := by
  unfold matchesKey
  rw [hm, hty, hti]

theorem create_alert_new (newId : String) {st : AlertStore}
    {data : AlertCreate} {now : Int}
    (h : find_duplicate st.alerts data now = none) :
    create_alert st data newId now =
      ({ alerts := st.alerts ++ [newAlert data newId now] },
       newAlert data newId now) := by
  unfold create_alert
  rw [h]

theorem create_alert_dup (newId : String) {st : AlertStore}
    {data : AlertCreate} {now : Int} {a : Alert}
    (h : find_duplicate st.alerts data now = some a) :
    create_alert st data newId now = (st, a) := by
  unfold create_alert
  rw [h]

/-- C3: creating an alert with the same (model, type, title) key within the
1-hour dedup window returns the first alert unchanged (same id, same
`created_at`) and the store still holds exactly one alert with that key;
once the window has elapsed a fresh ACTIVE alert is appended instead. -/
theorem create_alert_dedup_spec (st0 : AlertStore) (d1 d2 : AlertCreate)
    (i1 i2 : String) (t1 t2 : Int)
    (hm : d2.model_id = d1.model_id) (hty : d2.alert_type = d1.alert_type)
    (hti : d2.title = d1.title)
    (hnone : ∀ a ∈ st0.alerts, ¬ matchesKey d1 a) :
    ((create_alert st0 d1 i1 t1).2.id = i1 ∧
     (create_alert st0 d1 i1 t1).2.created_at = t1 ∧
     (create_alert st0 d1 i1 t1).2.status = AlertStatus.ACTIVE) ∧
    (t2 - t1 < 3600 →
      create_alert (create_alert st0 d1 i1 t1).1 d2 i2 t2 =
        ((create_alert st0 d1 i1 t1).1, (create_alert st0 d1 i1 t1).2) ∧
      countMatching (create_alert (create_alert st0 d1 i1 t1).1 d2 i2 t2).1 d1
        = 1) ∧
    (3600 ≤ t2 - t1 →
      (create_alert (create_alert st0 d1 i1 t1).1 d2 i2 t2).2.id = i2 ∧
      (create_alert (create_alert st0 d1 i1 t1).1 d2 i2 t2).2.created_at = t2 ∧
      (create_alert (create_alert st0 d1 i1 t1).1 d2 i2 t2).2.status =
        AlertStatus.ACTIVE ∧
      (create_alert (create_alert st0 d1 i1 t1).1 d2 i2 t2).1.alerts =
        (create_alert st0 d1 i1 t1).1.alerts ++
          [(create_alert (create_alert st0 d1 i1 t1).1 d2 i2 t2).2]) := by
  have h1 : find_duplicate st0.alerts d1 t1 = none := find_duplicate_none hnone
  have hnone2 : ∀ a ∈ st0.alerts, ¬ matchesKey d2 a := fun a ha h =>
    hnone a ha ((matchesKey_iff_of_eq hm hty hti a).mp h)
  have h0 : find_duplicate st0.alerts d2 t2 = none := find_duplicate_none hnone2
  have hc1 := create_alert_new i1 h1
  rw [hc1]
  dsimp only
  refine ⟨⟨rfl, rfl, rfl⟩, ?_, ?_⟩
  · intro hw
    have hmem : isDuplicateOf d2 (t2 - 3600 * DEDUP_WINDOW_HOURS)
        (newAlert d1 i1 t1) := by
      refine ⟨hm.symm, hty.symm, hti.symm, rfl, ?_⟩
      show t2 - 3600 * DEDUP_WINDOW_HOURS < t1
      unfold DEDUP_WINDOW_HOURS
      omega
    have hdup : find_duplicate (st0.alerts ++ [newAlert d1 i1 t1]) d2 t2 =
        some (newAlert d1 i1 t1) := by
      rw [find_duplicate_append h0]
      unfold find_duplicate
      rw [List.find?_cons_of_pos]
      simpa using hmem
    have hc2 := create_alert_dup i2 hdup
    refine ⟨hc2, ?_⟩
    rw [hc2]
    unfold countMatching
    dsimp only
    rw [List.countP_append]
    have hz : st0.alerts.countP (fun a => decide (matchesKey d1 a)) = 0 := by
      rw [List.countP_eq_zero]
      intro a ha
      simpa using hnone a ha
    have ho : List.countP (fun a => decide (matchesKey d1 a))
        [newAlert d1 i1 t1] = 1 := by
      have : matchesKey d1 (newAlert d1 i1 t1) := ⟨rfl, rfl, rfl⟩
      simp [List.countP_cons, this]
    rw [hz, ho]
  · intro hw
    have hnd : find_duplicate (st0.alerts ++ [newAlert d1 i1 t1]) d2 t2 =
        none := by
      rw [find_duplicate_append h0]
      unfold find_duplicate
      rw [List.find?_cons_of_neg, List.find?_nil]
      simp only [decide_eq_true_eq]
      intro hdup
      have := hdup.2.2.2.2
      have hca : (newAlert d1 i1 t1).created_at = t1 := rfl
      have h36 : (3600 : Int) * DEDUP_WINDOW_HOURS = 3600 := by decide
      omega
    have hc2 := create_alert_new i2 hnd
    rw [hc2]
    exact ⟨rfl, rfl, rfl, rfl⟩

/-- Concrete data used for the alert-deduplication witness. -/
def c3Data : AlertCreate :=
  { model_id := "m1", alert_type := AlertType.DRIFT,
    severity := AlertSeverity.WARNING, title := "Drift", message := "msg" }

/-- Witness for `create_alert_dedup_spec`: a second identical alert 10 seconds
after the first is deduplicated. -/
theorem create_alert_dedup_spec_witness :
    create_alert (create_alert ⟨[]⟩ c3Data "a1" 0).1 c3Data "a2" 10 =
      ((create_alert ⟨[]⟩ c3Data "a1" 0).1, (create_alert ⟨[]⟩ c3Data "a1" 0).2) ∧
    countMatching
      (create_alert (create_alert ⟨[]⟩ c3Data "a1" 0).1 c3Data "a2" 10).1 c3Data
      = 1 :=
  (create_alert_dedup_spec ⟨[]⟩ c3Data c3Data "a1" "a2" 0 10 rfl rfl rfl
    (by intro a ha; simp at ha)).2.1 (by decide)

/-- C10: deduplication matches only ACTIVE alerts — when every stored alert
with the same (model, type, title) key is no longer ACTIVE, `create_alert`
appends a brand-new ACTIVE alert with the fresh id and timestamp; and
acknowledge/resolve are exactly the operations that move an alert out of
ACTIVE (to ACKNOWLEDGED resp. RESOLVED). -/
theorem create_alert_only_active_dedup :
    (∀ (st : AlertStore) (d : AlertCreate) (i : String) (now : Int),
      (∀ a ∈ st.alerts, matchesKey d a → a.status ≠ AlertStatus.ACTIVE) →
      create_alert st d i now =
        ({ alerts := st.alerts ++ [newAlert d i now] }, newAlert d i now) ∧
      (newAlert d i now).id = i ∧ (newAlert d i now).created_at = now ∧
      (newAlert d i now).status = AlertStatus.ACTIVE) ∧
    (∀ (st : AlertStore) (aid u : String) (t : Int) (a : Alert),
      (acknowledge_alert st aid u t).2 = some a →
      a.status = AlertStatus.ACKNOWLEDGED) ∧
    (∀ (st : AlertStore) (aid : String) (note : Option String) (t : Int)
      (a : Alert),
      (resolve_alert st aid note t).2 = some a →
      a.status = AlertStatus.RESOLVED) := by
  refine ⟨?_, ?_, ?_⟩
  · intro st d i now hst
    have hnd : find_duplicate st.alerts d now = none := by
      unfold find_duplicate
      rw [List.find?_eq_none]
      intro a ha
      simp only [decide_eq_true_eq]
      intro hdup
      exact hst a ha (isDuplicateOf_matchesKey hdup) hdup.2.2.2.1
    exact ⟨create_alert_new i hnd, rfl, rfl, rfl⟩
  · intro st aid u t a h
    unfold acknowledge_alert at h
    cases hf : st.alerts.find? (fun x => decide (x.id = aid)) with
    | none => rw [hf] at h; simp at h
    | some a0 =>
      rw [hf] at h
      simp only [Option.some.injEq] at h
      rw [← h]
  · intro st aid note t a h
    unfold resolve_alert at h
    cases hf : st.alerts.find? (fun x => decide (x.id = aid)) with
    | none => rw [hf] at h; simp at h
    | some a0 =>
      rw [hf] at h
      simp only [Option.some.injEq] at h
      rw [← h]

/-- An already-acknowledged alert matching `c3Data`-like key, for the C10
witness. -/
def c10Acked : Alert :=
  { id := "a1", model_id := "m1", alert_type := AlertType.DRIFT,
    severity := AlertSeverity.WARNING, status := AlertStatus.ACKNOWLEDGED,
    title := "Drift", message := "msg", created_at := 50 }

/-- Concrete create data for the C10 witness. -/
def c10Data : AlertCreate :=
  { model_id := "m1", alert_type := AlertType.DRIFT,
    severity := AlertSeverity.WARNING, title := "Drift", message := "msg" }

/-- Witness for `create_alert_only_active_dedup`: with a matching but
acknowledged alert created 50 seconds ago, a new alert is created at t=100. -/
theorem create_alert_only_active_dedup_witness :
    create_alert ⟨[c10Acked]⟩ c10Data "a2" 100 =
      ({ alerts := (⟨[c10Acked]⟩ : AlertStore).alerts ++
          [newAlert c10Data "a2" 100] }, newAlert c10Data "a2" 100) :=
  (create_alert_only_active_dedup.1 ⟨[c10Acked]⟩ c10Data "a2" 100
    (by intro a ha hk; simp only [List.mem_singleton] at ha; subst ha; decide)).1

/-! ## Baseline service
Embedding of `backend/app/services/baseline_service.py`.  Metric values are
rationals; the metric map is an association list.  The stored `Baseline` DB
row has no severity column, so `set_baselines` drops the configured severity;
`check_baselines` instead looks severity up in `DEFAULT_BASELINES` by metric
name.  Numeric formatting inside messages is elided; the message strings keep
the metric name and the meets/violates wording. -/

/-- Dataclass `BaselineConfig`. -/
structure BaselineConfig where
  metric : String
  threshold : ℚ
  operator : String
  severity : String := "WARNING"
  description : Option String := none
deriving DecidableEq

/-- The `Baseline` DB row as created by `set_baselines` (columns
`metric_name`, `threshold`, `operator`; there is no severity column). -/
structure Baseline where
  metric_name : String
  threshold : ℚ
  operator : String
deriving DecidableEq

/-- Dataclass `BaselineCheckResult`. -/
structure BaselineCheckResult where
  metric : String
  current_value : ℚ
  threshold : ℚ
  operator : String
  passed : Bool
  severity : String
  message : String
deriving DecidableEq

/-- Class constant `BaselineService.DEFAULT_BASELINES`. -/
def DEFAULT_BASELINES : List BaselineConfig :=
  [{ metric := "precision", threshold := 85/100, operator := "gte",
     severity := "WARNING",
     description := some "Precision should stay above 85 percent" },
   { metric := "recall", threshold := 80/100, operator := "gte",
     severity := "CRITICAL",
     description := some "Recall is critical for fraud detection" },
   { metric := "f1", threshold := 82/100, operator := "gte",
     severity := "WARNING",
     description := some "F1 score should remain balanced" },
   { metric := "auc", threshold := 90/100, operator := "gte",
     severity := "WARNING",
     description := some "AUC should stay above 90 percent" },
   { metric := "fpr", threshold := 10/100, operator := "lte",
     severity := "WARNING",
     description := some "False positive rate should stay below 10 percent" }]

/-- Embedding of `BaselineService.set_baselines`: replaces a model's rows by
new ones built from the configs; only metric name, threshold and operator are
stored (the configured severity is not persisted). -/
def set_baselines (baselines : List BaselineConfig) : List Baseline :=
  baselines.map (fun config =>
    { metric_name := config.metric, threshold := config.threshold,
      operator := config.operator })

/-- Embedding of `BaselineService._evaluate_baseline`. -/
def evaluate_baseline (current threshold : ℚ) (op : String) : Bool :=
  if op = "gte" then decide (current ≥ threshold)
  else if op = "lte" then decide (current ≤ threshold)
  else if op = "eq" then decide (|current - threshold| < 1/10000)
  else if op = "gt" then decide (current > threshold)
  else if op = "lt" then decide (current < threshold)
  else true

/-- Lookup in the `current_metrics` dict. -/
def lookupMetric (metrics : List (String × ℚ)) (name : String) : Option ℚ :=
  (metrics.find? (fun kv => decide (kv.1 = name))).map (fun kv => kv.2)

/-- The severity lookup loop inside `check_baselines`: scan
`DEFAULT_BASELINES` for a config with the same metric, default WARNING. -/
def severityFromDefaults (metric_name : String) : String :=
  match DEFAULT_BASELINES.find? (fun cfg => decide (cfg.metric = metric_name)) with
  | some cfg => cfg.severity
  | none => "WARNING"

/-- One iteration of the loop in `BaselineService.check_baselines`. -/
def checkOne (current_metrics : List (String × ℚ)) (b : Baseline) :
    BaselineCheckResult :=
  match lookupMetric current_metrics b.metric_name with
  | none =>
    { metric := b.metric_name, current_value := 0, threshold := b.threshold,
      operator := b.operator, passed := false, severity := "WARNING",
      message := "Metric " ++ b.metric_name ++ " not found in current metrics" }
  | some current_value =>
    let passed := evaluate_baseline current_value b.threshold b.operator
    { metric := b.metric_name, current_value := current_value,
      threshold := b.threshold, operator := b.operator, passed := passed,
      severity := severityFromDefaults b.metric_name,
      message := if passed
        then b.metric_name ++ " meets threshold " ++ b.operator
        else b.metric_name ++ " violates threshold " ++ b.operator }

/-- Embedding of `BaselineService.check_baselines`. -/
def check_baselines (baselines : List Baseline)
    (current_metrics : List (String × ℚ)) : List BaselineCheckResult :=
  baselines.map (checkOne current_metrics)

/-- C4: every configured baseline yields exactly one result, in order; a
metric missing from the current map gives a failed result whose message names
the metric; a present metric is evaluated with the exact operator semantics
(gte, lte, eq within 1e-4, gt, lt). -/
theorem check_baselines_spec (bs : List Baseline) (ms : List (String × ℚ)) :
    (check_baselines bs ms).length = bs.length ∧
    (∀ (i : Nat) (b : Baseline), bs[i]? = some b →
      ∃ r, (check_baselines bs ms)[i]? = some r ∧
        r.metric = b.metric_name ∧
        (lookupMetric ms b.metric_name = none →
          r.passed = false ∧
          r.message =
            "Metric " ++ b.metric_name ++ " not found in current metrics") ∧
        (∀ v, lookupMetric ms b.metric_name = some v →
          (b.operator = "gte" → (r.passed = true ↔ b.threshold ≤ v)) ∧
          (b.operator = "lte" → (r.passed = true ↔ v ≤ b.threshold)) ∧
          (b.operator = "eq" → (r.passed = true ↔ |v - b.threshold| < 1/10000)) ∧
          (b.operator = "gt" → (r.passed = true ↔ b.threshold < v)) ∧
          (b.operator = "lt" → (r.passed = true ↔ v < b.threshold)))) := by
  constructor
  · simp [check_baselines]
  · intro i b hb
    refine ⟨checkOne ms b, by simp [check_baselines, hb], ?_, ?_, ?_⟩
    · unfold checkOne
      cases h : lookupMetric ms b.metric_name <;> simp [h]
    · intro hm
      unfold checkOne
      rw [hm]
      exact ⟨rfl, rfl⟩
    · intro v hv
      unfold checkOne
      rw [hv]
      dsimp only
      refine ⟨?_, ?_, ?_, ?_, ?_⟩ <;> intro hop <;>
        simp [evaluate_baseline, hop, ge_iff_le]

/-- The example baseline from the spec, for the C4 witness. -/
def c4Baseline : Baseline :=
  { metric_name := "f1", threshold := 82/100, operator := "gte" }

/-- Witness for `check_baselines_spec`: the spec's example run, baseline
f1 gte 0.82 against current f1 = 0.80. -/
theorem check_baselines_spec_witness :
    ∃ r, (check_baselines [c4Baseline] [("f1", (80:ℚ)/100)])[0]? = some r ∧
      r.metric = c4Baseline.metric_name ∧
      (lookupMetric [("f1", (80:ℚ)/100)] c4Baseline.metric_name = none →
        r.passed = false ∧
        r.message = "Metric " ++ c4Baseline.metric_name ++
          " not found in current metrics") ∧
      (∀ v, lookupMetric [("f1", (80:ℚ)/100)] c4Baseline.metric_name = some v →
        (c4Baseline.operator = "gte" →
          (r.passed = true ↔ c4Baseline.threshold ≤ v)) ∧
        (c4Baseline.operator = "lte" →
          (r.passed = true ↔ v ≤ c4Baseline.threshold)) ∧
        (c4Baseline.operator = "eq" →
          (r.passed = true ↔ |v - c4Baseline.threshold| < 1/10000)) ∧
        (c4Baseline.operator = "gt" →
          (r.passed = true ↔ c4Baseline.threshold < v)) ∧
        (c4Baseline.operator = "lt" →
          (r.passed = true ↔ v < c4Baseline.threshold))) :=
  (check_baselines_spec [c4Baseline] [("f1", (80:ℚ)/100)]).2 0 c4Baseline rfl

/-- A custom baseline config whose configured severity is CRITICAL, for the
C9 counterexample. -/
def c9Config : BaselineConfig :=
  { metric := "latency", threshold := 1, operator := "lte",
    severity := "CRITICAL" }

/-- Counterexample to C9 as stated: a caller sets a custom baseline with
severity CRITICAL for metric latency, yet the check result reports severity
WARNING — the configured severity is not stored and is not returned. -/
theorem baseline_severity_counterexample :
    c9Config.severity = "CRITICAL" ∧
    (check_baselines (set_baselines [c9Config]) [("latency", (1:ℚ)/2)]).map
      BaselineCheckResult.severity = ["WARNING"] := by
  exact ⟨rfl, rfl⟩

/-- C9 amended: the severity of a check result is looked up from
`DEFAULT_BASELINES` by metric name (so e.g. recall maps to CRITICAL),
defaulting to WARNING when the metric is not among the defaults; for a metric
missing from the current map it is the literal WARNING.  The severity
configured through `set_baselines` is discarded. -/
theorem check_baselines_severity_amended (bs : List Baseline)
    (ms : List (String × ℚ)) (i : Nat) (b : Baseline) (hb : bs[i]? = some b) :
    ∃ r, (check_baselines bs ms)[i]? = some r ∧
      r.severity = (if (lookupMetric ms b.metric_name).isSome
                    then severityFromDefaults b.metric_name
                    else "WARNING") := by
  refine ⟨checkOne ms b, by simp [check_baselines, hb], ?_⟩
  unfold checkOne
  cases h : lookupMetric ms b.metric_name <;> simp [h]

/-- Witness for `check_baselines_severity_amended` at the counterexample
input. -/
theorem check_baselines_severity_amended_witness :
    ∃ r, (check_baselines (set_baselines [c9Config])
            [("latency", (1:ℚ)/2)])[0]? = some r ∧
      r.severity = (if (lookupMetric [("latency", (1:ℚ)/2)] "latency").isSome
                    then severityFromDefaults "latency"
                    else "WARNING") :=
  check_baselines_severity_amended (set_baselines [c9Config])
    [("latency", (1:ℚ)/2)] 0 ⟨"latency", 1, "lte"⟩ rfl

/-! ## Drift detection
Embedding of the status/alert/aggregation logic of `ml/drift/data_drift.py`
(`DataDriftDetector.compute_drift`, `get_summary`) and
`backend/app/services/drift_service.py` (`DriftMonitoringService`'s
thresholds and `_generate_alerts`).  The statistics themselves (PSI, KS) feed
in as rational inputs; the claims are about the threshold logic. -/

/-- Dataclass `DriftConfig` with its defaults. -/
structure DriftConfig where
  psi_bins : Nat := 10
  psi_warning_threshold : ℚ := 1/10
  psi_critical_threshold : ℚ := 1/4
  ks_alpha : ℚ := 1/20

/-- Per-feature status assignment inside `DataDriftDetector.compute_drift`. -/
def drift_feature_status (cfg : DriftConfig) (psi : ℚ) : String :=
  if psi > cfg.psi_critical_threshold then "CRITICAL"
  else if psi > cfg.psi_warning_threshold then "WARNING"
  else "OK"

/-- Per-feature result (dataclass `DriftResult`; the `details` dict is not
read by any modelled operation and is omitted). -/
structure DriftResult where
  feature : String
  psi : ℚ
  ks_statistic : ℚ
  ks_p_value : ℚ
  status : String

/-- Overall-status computation of `DataDriftDetector.get_summary`: count the
CRITICAL and WARNING features and report the worst level present. -/
def overall_drift_status (results : List DriftResult) : String :=
  if results.countP (fun r => decide (r.status = "CRITICAL")) > 0 then
    "CRITICAL"
  else if results.countP (fun r => decide (r.status = "WARNING")) > 0 then
    "WARNING"
  else "OK"

/-- The per-feature entry of the drift-metrics dict in
`DriftMonitoringService`. -/
structure FeatureDriftMetrics where
  psi : ℚ
  ks_statistic : ℚ
  ks_p_value : ℚ

/-- Dataclass `DriftAlert` (message text elided down to the feature name). -/
structure DriftAlert where
  feature : String
  metric : String
  current_value : ℚ
  threshold : ℚ
  severity : String

/-- Class constant `DriftMonitoringService.PSI_WARNING`. -/
def PSI_WARNING : ℚ := 1/10

/-- Class constant `DriftMonitoringService.PSI_CRITICAL`. -/
def PSI_CRITICAL : ℚ := 1/4

/-- Class constant `DriftMonitoringService.KS_ALPHA`. -/
def KS_ALPHA : ℚ := 1/20

/-- The alerts produced for one feature by
`DriftMonitoringService._generate_alerts`: a PSI alert (critical, else
warning, else none) followed by an independent KS-test warning alert. -/
def featureAlerts (feature : String) (m : FeatureDriftMetrics) :
    List DriftAlert :=
  (if m.psi > PSI_CRITICAL then
    [{ feature := feature, metric := "psi", current_value := m.psi,
       threshold := PSI_CRITICAL, severity := "CRITICAL" }]
   else if m.psi > PSI_WARNING then
    [{ feature := feature, metric := "psi", current_value := m.psi,
       threshold := PSI_WARNING, severity := "WARNING" }]
   else []) ++
  (if m.ks_p_value < KS_ALPHA ∧ m.ks_statistic > 1/10 then
    [{ feature := feature, metric := "ks_statistic",
       current_value := m.ks_statistic, threshold := KS_ALPHA,
       severity := "WARNING" }]
   else [])

/-- Embedding of `DriftMonitoringService._generate_alerts` over the ordered
feature-metrics dict. -/
def generate_alerts (metrics : List (String × FeatureDriftMetrics)) :
    List DriftAlert :=
  (metrics.map (fun fm => featureAlerts fm.1 fm.2)).flatten

/-- C7: with the default thresholds, a feature's status is CRITICAL exactly
when PSI > 0.25, WARNING exactly when 0.10 < PSI ≤ 0.25 and OK exactly when
PSI ≤ 0.10; a feature with KS p-value < 0.05 and KS statistic > 0.1 always
yields a WARNING-level ks_statistic alert (in particular even when its PSI
status is OK); and the aggregate status is the worst feature status:
CRITICAL if any feature is CRITICAL, else WARNING if any is WARNING, else
OK. -/
theorem drift_status_spec :
    (∀ psi : ℚ,
      (drift_feature_status {} psi = "CRITICAL" ↔ psi > 1/4) ∧
      (drift_feature_status {} psi = "WARNING" ↔ (1/10 < psi ∧ psi ≤ 1/4)) ∧
      (drift_feature_status {} psi = "OK" ↔ psi ≤ 1/10)) ∧
    (∀ (metrics : List (String × FeatureDriftMetrics)) (feature : String)
      (m : FeatureDriftMetrics), (feature, m) ∈ metrics →
      m.ks_p_value < 1/20 → m.ks_statistic > 1/10 →
      ∃ a ∈ generate_alerts metrics, a.feature = feature ∧
        a.metric = "ks_statistic" ∧ a.severity = "WARNING") ∧
    (∀ results : List DriftResult,
      (overall_drift_status results = "CRITICAL" ↔
        ∃ r ∈ results, r.status = "CRITICAL") ∧
      (overall_drift_status results = "WARNING" ↔
        ((∀ r ∈ results, r.status ≠ "CRITICAL") ∧
         ∃ r ∈ results, r.status = "WARNING")) ∧
      (overall_drift_status results = "OK" ↔
        (∀ r ∈ results, r.status ≠ "CRITICAL" ∧ r.status ≠ "WARNING"))) := by
  refine ⟨?_, ?_, ?_⟩
  · intro psi
    unfold drift_feature_status
    refine ⟨?_, ?_, ?_⟩ <;> split_ifs with h1 h2 <;>
      simp_all <;> linarith
  · intro metrics feature m hmem hp hs
    refine ⟨{ feature := feature, metric := "ks_statistic",
              current_value := m.ks_statistic, threshold := KS_ALPHA,
              severity := "WARNING" }, ?_, rfl, rfl, rfl⟩
    unfold generate_alerts
    rw [List.mem_flatten]
    refine ⟨featureAlerts feature m, ?_, ?_⟩
    · exact List.mem_map_of_mem (fun fm => featureAlerts fm.1 fm.2) hmem
    · unfold featureAlerts
      rw [List.mem_append]
      right
      rw [if_pos ⟨hp, hs⟩]
      exact List.mem_singleton.mpr rfl
  · intro results
    have hc : (0 < results.countP (fun r => decide (r.status = "CRITICAL"))) ↔
        ∃ r ∈ results, r.status = "CRITICAL" := by
      rw [List.countP_pos_iff]
      simp
    have hw : (0 < results.countP (fun r => decide (r.status = "WARNING"))) ↔
        ∃ r ∈ results, r.status = "WARNING" := by
      rw [List.countP_pos_iff]
      simp
    unfold overall_drift_status
    by_cases h1 : ∃ r ∈ results, r.status = "CRITICAL"
    · rw [if_pos (hc.mpr h1)]
      refine ⟨iff_of_true rfl h1, ?_, ?_⟩
      · refine iff_of_false (by decide) ?_
        rintro ⟨hno, -⟩
        obtain ⟨r, hr, hcr⟩ := h1
        exact hno r hr hcr
      · refine iff_of_false (by decide) ?_
        intro hall
        obtain ⟨r, hr, hcr⟩ := h1
        exact (hall r hr).1 hcr
    · rw [if_neg (fun hpos => h1 (hc.mp hpos))]
      have hno : ∀ r ∈ results, r.status ≠ "CRITICAL" :=
        fun r hr hcr => h1 ⟨r, hr, hcr⟩
      by_cases h2 : ∃ r ∈ results, r.status = "WARNING"
      · rw [if_pos (hw.mpr h2)]
        refine ⟨iff_of_false (by decide) h1, iff_of_true rfl ⟨hno, h2⟩, ?_⟩
        refine iff_of_false (by decide) ?_
        intro hall
        obtain ⟨r, hr, hwr⟩ := h2
        exact (hall r hr).2 hwr
      · rw [if_neg (fun hpos => h2 (hw.mp hpos))]
        refine ⟨iff_of_false (by decide) h1, ?_,
          iff_of_true rfl fun r hr =>
            ⟨fun hcr => h1 ⟨r, hr, hcr⟩, fun hwr => h2 ⟨r, hr, hwr⟩⟩⟩
        refine iff_of_false (by decide) ?_
        rintro ⟨-, hex⟩
        exact h2 hex

/-- Witness for `drift_status_spec`: one feature with OK PSI but a
significant KS shift still yields a WARNING ks_statistic alert. -/
theorem drift_status_spec_witness :
    ∃ a ∈ generate_alerts [("amount", ⟨1/20, 15/100, 1/100⟩)],
      a.feature = "amount" ∧ a.metric = "ks_statistic" ∧
      a.severity = "WARNING" :=
  drift_status_spec.2.1 [("amount", ⟨1/20, 15/100, 1/100⟩)] "amount"
    ⟨1/20, 15/100, 1/100⟩ (List.mem_singleton.mpr rfl) (by norm_num) (by norm_num)

/-! ## Retraining pipeline stages
Embedding of `RetrainingPipeline` (same file as `should_retrain`).  Each
Python stage mutates the job; here a stage is a function on jobs.  Stages run
under one try/except: the first stage to raise marks the job FAILED with the
error text and stops the pipeline.  Stages that can raise are modelled as
`RetrainJob → Except String RetrainJob`; the concrete stages of this
repository never raise and are wrapped in `Except.ok`. -/

/-- Dataclass `RetrainConfig` with its defaults. -/
structure RetrainConfig where
  algorithm : String := "xgboost"
  use_latest_data : Bool := true
  data_window_days : Nat := 90
  validation_split : ℚ := 1/5
  hyperparameter_tuning : Bool := true
  fairness_constraint : Bool := true
  min_improvement_threshold : ℚ := 1/100
  auto_promote : Bool := false
deriving DecidableEq

/-- The metrics dict produced by training/comparison. -/
structure ModelMetrics where
  precision : ℚ
  «recall» : ℚ
  f1 : ℚ
  auc : ℚ
deriving DecidableEq

/-- The per-metric entries of the comparison dict. -/
structure ComparisonMetrics where
  f1 : ℚ
  precision : ℚ
  «recall» : ℚ
deriving DecidableEq

/-- The `comparison_result` dict set by `_step_comparison` and read by
`_step_decision` (which reads only `is_better` and `passes_threshold`). -/
structure ComparisonResult where
  current_model : ComparisonMetrics
  new_model : Option ModelMetrics
  improvement : ComparisonMetrics
  is_better : Bool
  passes_threshold : Bool
deriving DecidableEq

/-- Dataclass `RetrainJob`. -/
structure RetrainJob where
  id : String
  model_id : String
  reason : RetrainReason
  status : RetrainStatus
  config : RetrainConfig
  started_at : Int
  completed_at : Option Int := none
  current_step : String := ""
  progress : ℚ := 0
  metrics : Option ModelMetrics := none
  new_model_id : Option String := none
  comparison_result : Option ComparisonResult := none
  error : Option String := none
deriving DecidableEq

/-- The job dictionary `self._jobs` of `RetrainingPipeline`. -/
abbrev JobMap : Type := String → Option RetrainJob

/-- Dictionary update `self._jobs[k] = j`. -/
def updateJobs (jobs : JobMap) (k : String) (j : RetrainJob) : JobMap :=
  fun k2 => if k2 = k then some j else jobs k2

/-- Embedding of `RetrainingPipeline.trigger_retraining`; `newId` stands for
the fresh `uuid4()` and `now` for `datetime.utcnow()`. -/
def trigger_retraining (jobs : JobMap) (newId model_id : String)
    (reason : RetrainReason) (config : Option RetrainConfig) (now : Int) :
    JobMap × RetrainJob :=
  let job : RetrainJob :=
    { id := newId, model_id := model_id, reason := reason,
      status := RetrainStatus.PENDING, config := config.getD {},
      started_at := now, current_step := "Initializing", progress := 0 }
  (updateJobs jobs newId job, job)

/-- Embedding of `RetrainingPipeline._step_data_preparation`. -/
def step_data_preparation (job : RetrainJob) : RetrainJob :=
  { job with status := RetrainStatus.DATA_PREPARATION,
             current_step := "Preparing training data", progress := 2/10 }

/-- The mock metrics dict assigned by `_step_training`. -/
def mockTrainedMetrics : ModelMetrics :=
  { precision := 93/100, «recall» := 89/100, f1 := 91/100, auc := 96/100 }

/-- Embedding of `RetrainingPipeline._step_training`. -/
def step_training (job : RetrainJob) : RetrainJob :=
  { job with status := RetrainStatus.TRAINING,
             current_step := "Training model", progress := 4/10,
             metrics := some mockTrainedMetrics }

/-- Embedding of `RetrainingPipeline._step_validation`. -/
def step_validation (job : RetrainJob) : RetrainJob :=
  { job with status := RetrainStatus.VALIDATION,
             current_step := "Validating model", progress := 6/10 }

/-- Embedding of `RetrainingPipeline._step_comparison` (the comparison dict
is the mock of the source). -/
def step_comparison (job : RetrainJob) : RetrainJob :=
  { job with status := RetrainStatus.COMPARISON,
             current_step := "Comparing with production model",
             progress := 8/10,
             comparison_result := some
               { current_model := { f1 := 88/100, precision := 9/10,
                                    «recall» := 86/100 },
                 new_model := job.metrics,
                 improvement := { f1 := 3/100, precision := 3/100,
                                  «recall» := 3/100 },
                 is_better := true, passes_threshold := true } }

/-- Python truthiness test `comparison and comparison.get("is_better") and
comparison.get("passes_threshold")` of `_step_decision`. -/
def comparisonPasses : Option ComparisonResult → Bool
  | some c => c.is_better && c.passes_threshold
  | none => false

/-- Embedding of `RetrainingPipeline._step_decision`; `newModelId` stands for
the fresh `uuid4()` of the promoted candidate. -/
def step_decision (job : RetrainJob) (newModelId : String) (now : Int) :
    RetrainJob :=
  let job1 := { job with progress := (1:ℚ) }
  if comparisonPasses job1.comparison_result then
    if job1.config.auto_promote then
      { job1 with status := RetrainStatus.COMPLETED,
                  current_step := "New model promoted to production",
                  new_model_id := some newModelId,
                  completed_at := some now }
    else
      { job1 with status := RetrainStatus.COMPLETED,
                  current_step := "Awaiting manual approval",
                  new_model_id := some newModelId,
                  completed_at := some now }
  else
    { job1 with status := RetrainStatus.REJECTED,
                current_step := "New model did not meet improvement threshold",
                completed_at := some now }

/-- A pipeline stage, as seen by `run_pipeline`'s try/except: it either
returns the updated job or raises an error string. -/
abbrev PipelineStage : Type := RetrainJob → Except String RetrainJob

/-- The body of `run_pipeline`'s try/except over a stage list: run stages in
order; on the first raised error, mark the current job FAILED with the error
text and stop. -/
def runStages : List PipelineStage → RetrainJob → RetrainJob
  | [], job => job
  | s :: rest, job =>
    match s job with
    | Except.ok job2 => runStages rest job2
    | Except.error e =>
      { job with status := RetrainStatus.FAILED, error := some e }

/-- The five stages of `RetrainingPipeline.run_pipeline` in source order
(none of the concrete stages raises). -/
def pipelineStages (newModelId : String) (now : Int) : List PipelineStage :=
  [fun j => Except.ok (step_data_preparation j),
   fun j => Except.ok (step_training j),
   fun j => Except.ok (step_validation j),
   fun j => Except.ok (step_comparison j),
   fun j => Except.ok (step_decision j newModelId now)]

/-- Embedding of `RetrainingPipeline.run_pipeline`: unknown job ids raise
(outside the try block); otherwise the stage list runs under the handler and
the resulting job is stored and returned. -/
def run_pipeline (stages : List PipelineStage) (jobs : JobMap)
    (job_id : String) : Except String (JobMap × RetrainJob) :=
  match jobs job_id with
  | none => Except.error ("Job " ++ job_id ++ " not found")
  | some job =>
    let final := runStages stages job
    Except.ok (updateJobs jobs job_id final, final)

/-- Prefix run that succeeds: all stages return `ok`. -/
def runStagesOk : List PipelineStage → RetrainJob → Option RetrainJob
  | [], job => some job
  | s :: rest, job =>
    match s job with
    | Except.ok job2 => runStagesOk rest job2
    | Except.error _ => none

theorem runStages_of_runStagesOk {pre : List PipelineStage}
    {job cur : RetrainJob} (h : runStagesOk pre job = some cur)
    (rest : List PipelineStage) :
    runStages (pre ++ rest) job = runStages rest cur := by
  induction pre generalizing job with
  | nil =>
    simp only [runStagesOk, Option.some.injEq] at h
    rw [← h]
    rfl
  | cons s pre ih =>
    simp only [runStagesOk] at h
    cases hs : s job with
    | ok job2 =>
      rw [hs] at h
      simpa only [List.cons_append, runStages, hs] using ih h
    | error e => rw [hs] at h; cases h

/-- C6: if any stage of `run_pipeline` raises while all stages before it
succeeded, `run_pipeline` does not propagate the exception: the job is
marked FAILED with the error text recorded, no later stage runs (the result
does not depend on the remaining stages), and the failed job entity is
stored and returned to the caller. -/
theorem run_pipeline_stage_failure (jobs : JobMap) (job_id : String)
    (job cur : RetrainJob) (pre post : List PipelineStage)
    (s : PipelineStage) (e : String)
    (hjob : jobs job_id = some job)
    (hpre : runStagesOk pre job = some cur)
    (hfail : s cur = Except.error e) :
    run_pipeline (pre ++ s :: post) jobs job_id =
      Except.ok
        (updateJobs jobs job_id
          { cur with status := RetrainStatus.FAILED, error := some e },
         { cur with status := RetrainStatus.FAILED, error := some e }) ∧
    (∀ post2 : List PipelineStage,
      run_pipeline (pre ++ s :: post) jobs job_id =
        run_pipeline (pre ++ s :: post2) jobs job_id) := by
  have hrun : ∀ rest : List PipelineStage,
      runStages (pre ++ s :: rest) job =
        { cur with status := RetrainStatus.FAILED, error := some e } := by
    intro rest
    rw [runStages_of_runStagesOk hpre]
    simp only [runStages, hfail]
  constructor
  · unfold run_pipeline
    rw [hjob]
    simp only [hrun post]
  · intro post2
    unfold run_pipeline
    rw [hjob]
    simp only [hrun post, hrun post2]

/-- A concrete pending job for the C6 witness. -/
def c6Job : RetrainJob :=
  { id := "j1", model_id := "m1", reason := RetrainReason.DRIFT_DETECTED,
    status := RetrainStatus.PENDING, config := {}, started_at := 0,
    current_step := "Initializing" }

/-- Job map holding only `c6Job`, for the C6 witness. -/
def c6Jobs : JobMap := updateJobs (fun _ => none) "j1" c6Job

/-- A stage that raises, for the C6 witness. -/
def c6FailingStage : PipelineStage := fun _ => Except.error "boom"

/-- Witness for `run_pipeline_stage_failure`: a pipeline whose second stage
raises ends with the job FAILED and error recorded, with the remaining
concrete stages never run. -/
theorem run_pipeline_stage_failure_witness :
    run_pipeline ([fun j => Except.ok (step_data_preparation j)] ++
        c6FailingStage :: pipelineStages "m2" 5) c6Jobs "j1" =
      Except.ok
        (updateJobs c6Jobs "j1"
          { step_data_preparation c6Job with
              status := RetrainStatus.FAILED,
              error := some "boom" },
         { step_data_preparation c6Job with
             status := RetrainStatus.FAILED,
             error := some "boom" }) :=
  (run_pipeline_stage_failure c6Jobs "j1" c6Job (step_data_preparation c6Job)
    [fun j => Except.ok (step_data_preparation j)] (pipelineStages "m2" 5)
    c6FailingStage "boom" rfl rfl rfl).1

/-- C5: `_step_decision` on a job whose comparison result does not pass
(`is_better` or `passes_threshold` false) sets status REJECTED and leaves
`new_model_id` unset; on a passing comparison it sets status COMPLETED and
assigns the new model id. -/
theorem step_decision_spec (job : RetrainJob) (c : ComparisonResult)
    (newModelId : String) (now : Int)
    (hc : job.comparison_result = some c)
    (hn : job.new_model_id = none) :
    ((c.is_better = false ∨ c.passes_threshold = false) →
      (step_decision job newModelId now).status = RetrainStatus.REJECTED ∧
      (step_decision job newModelId now).new_model_id = none) ∧
    ((c.is_better = true ∧ c.passes_threshold = true) →
      (step_decision job newModelId now).status = RetrainStatus.COMPLETED ∧
      (step_decision job newModelId now).new_model_id = some newModelId) := by
  unfold step_decision
  dsimp only
  rw [hc]
  constructor
  · intro hbad
    have hcond : comparisonPasses (some c) = false := by
      cases hbad with
      | inl h => simp [comparisonPasses, h]
      | inr h => simp [comparisonPasses, h]
    rw [hcond, if_neg Bool.false_ne_true]
    exact ⟨rfl, hn⟩
  · rintro ⟨hb, hp⟩
    have hcond : comparisonPasses (some c) = true := by
      simp [comparisonPasses, hb, hp]
    rw [hcond, if_pos rfl]
    by_cases ha : job.config.auto_promote = true
    · rw [if_pos ha]
      exact ⟨rfl, rfl⟩
    · rw [if_neg ha]
      exact ⟨rfl, rfl⟩

/-- A job with a failing comparison attached, for the C5 witness. -/
def c5Job : RetrainJob :=
  { id := "j2", model_id := "m1", reason := RetrainReason.MANUAL,
    status := RetrainStatus.COMPARISON, config := {}, started_at := 0,
    comparison_result := some
      { current_model := { f1 := 88/100, precision := 9/10, «recall» := 86/100 },
        new_model := none,
        improvement := { f1 := 0, precision := 0, «recall» := 0 },
        is_better := false, passes_threshold := false } }

/-- Witness for `step_decision_spec`: a not-better candidate is rejected with
no new model id. -/
theorem step_decision_spec_witness :
    (step_decision c5Job "m9" 7).status = RetrainStatus.REJECTED ∧
    (step_decision c5Job "m9" 7).new_model_id = none :=
  (step_decision_spec c5Job
    { current_model := { f1 := 88/100, precision := 9/10, «recall» := 86/100 },
      new_model := none,
      improvement := { f1 := 0, precision := 0, «recall» := 0 },
      is_better := false, passes_threshold := false } "m9" 7 rfl rfl).1
    (Or.inl rfl)

/-! ## A/B testing service
Embedding of `backend/app/services/ab_testing_service.py`.  The test
dictionary is a map from id to test, plus the `_active_test` slot.  Config
fields other than the traffic split are not read by any modelled operation;
`route_request`'s `random.random()` becomes an explicit rational draw. -/

/-- A/B test status (enum `ABTestStatus`). -/
inductive ABTestStatus
  | DRAFT
  | RUNNING
  | PAUSED
  | COMPLETED
  | ABORTED
deriving DecidableEq

/-- A/B test outcome (enum `ABTestResult`). -/
inductive ABTestResult
  | PENDING
  | CHALLENGER_WINS
  | CHAMPION_WINS
  | NO_SIGNIFICANT_DIFFERENCE
deriving DecidableEq

/-- A/B test record (dataclass `ABTest`; metrics/analysis snapshots are not
read by the modelled operations and are omitted). -/
structure ABTest where
  id : String
  name : String
  champion_model_id : String
  challenger_model_id : String
  challenger_traffic_percent : ℚ := 10
  status : ABTestStatus
  result : ABTestResult
  created_at : Int
  started_at : Option Int := none
  ended_at : Option Int := none
  champion_samples : Nat := 0
  challenger_samples : Nat := 0
deriving DecidableEq

/-- The mutable state of `ABTestingService`: `self._tests` and
`self._active_test`. -/
structure ABState where
  tests : String → Option ABTest
  active_test : Option String

/-- The fresh service state (`__init__`). -/
def ABState.init : ABState := { tests := fun _ => none, active_test := none }

/-- Dictionary update `self._tests[k] = t`. -/
def putTest (s : ABState) (k : String) (t : ABTest) : String → Option ABTest :=
  fun k2 => if k2 = k then some t else s.tests k2

/-- Embedding of `ABTestingService.create_test`; `newId` stands for the fresh
`uuid4()` and `now` for `datetime.utcnow()`. -/
def create_test (s : ABState) (newId nm champ chal : String) (now : Int) :
    ABState × ABTest :=
  let t : ABTest :=
    { id := newId, name := nm, champion_model_id := champ,
      challenger_model_id := chal, status := ABTestStatus.DRAFT,
      result := ABTestResult.PENDING, created_at := now }
  ({ tests := putTest s newId t, active_test := s.active_test }, t)

/-- Embedding of `ABTestingService.start_test`. -/
def start_test (s : ABState) (test_id : String) (now : Int) :
    Except String (ABState × ABTest) :=
  match s.tests test_id with
  | none => Except.error ("Test " ++ test_id ++ " not found")
  | some t =>
    if s.active_test.isSome ∧ s.active_test ≠ some test_id then
      Except.error "Another test is already running"
    else
      let t2 := { t with status := ABTestStatus.RUNNING,
                         started_at := some now }
      Except.ok ({ tests := putTest s test_id t2,
                   active_test := some test_id }, t2)

/-- Embedding of `ABTestingService.conclude_test` (there is no check of the
current status in the source). -/
def conclude_test (s : ABState) (test_id : String) (result : ABTestResult)
    (promote_challenger : Bool) (now : Int) :
    Except String (ABState × ABTest) :=
  match s.tests test_id with
  | none => Except.error ("Test " ++ test_id ++ " not found")
  | some t =>
    let t2 := { t with status := ABTestStatus.COMPLETED, result := result,
                       ended_at := some now }
    Except.ok ({ tests := putTest s test_id t2,
                 active_test := if s.active_test = some test_id then none
                                else s.active_test }, t2)

/-- Embedding of `ABTestingService.abort_test`. -/
def abort_test (s : ABState) (test_id : String) (reason : String)
    (now : Int) : Except String (ABState × ABTest) :=
  match s.tests test_id with
  | none => Except.error ("Test " ++ test_id ++ " not found")
  | some t =>
    let t2 := { t with status := ABTestStatus.ABORTED, ended_at := some now }
    Except.ok ({ tests := putTest s test_id t2,
                 active_test := if s.active_test = some test_id then none
                                else s.active_test }, t2)

/-- Embedding of `ABTestingService.route_request`; `draw` stands for the
`random.random()` sample in [0, 1). -/
def route_request (s : ABState) (test_id : Option String) (draw : ℚ) :
    ABState × String :=
  match test_id.orElse (fun _ => s.active_test) with
  | none => (s, "default")
  | some tid =>
    match s.tests tid with
    | none => (s, "default")
    | some t =>
      if t.status ≠ ABTestStatus.RUNNING then (s, "default")
      else if draw * 100 < t.challenger_traffic_percent then
        ({ tests := putTest s tid
             { t with challenger_samples := t.challenger_samples + 1 },
           active_test := s.active_test }, t.challenger_model_id)
      else
        ({ tests := putTest s tid
             { t with champion_samples := t.champion_samples + 1 },
           active_test := s.active_test }, t.champion_model_id)

/-- One mutating call of the A/B testing service, for reachability. -/
inductive ABOp
  | create (newId nm champ chal : String) (now : Int)
  | start (test_id : String) (now : Int)
  | conclude (test_id : String) (result : ABTestResult)
      (promote_challenger : Bool) (now : Int)
  | abort (test_id : String) (reason : String) (now : Int)
  | route (test_id : Option String) (draw : ℚ)

/-- State after a fallible call: the new state on success, the old state when
the call raised (the source raises before mutating anything). -/
def afterCall (r : Except String (ABState × ABTest)) (s : ABState) : ABState :=
  match r with
  | Except.ok p => p.1
  | Except.error _ => s

/-- Effect of one service call on the state. -/
def applyOp (s : ABState) : ABOp → ABState
  | ABOp.create newId nm champ chal now =>
    (create_test s newId nm champ chal now).1
  | ABOp.start test_id now => afterCall (start_test s test_id now) s
  | ABOp.conclude test_id result promote now =>
    afterCall (conclude_test s test_id result promote now) s
  | ABOp.abort test_id reason now =>
    afterCall (abort_test s test_id reason now) s
  | ABOp.route test_id draw => (route_request s test_id draw).1

/-- States reachable from a fresh service by any sequence of calls. -/
inductive Reachable : ABState → Prop
  | init : Reachable ABState.init
  | step (s : ABState) (op : ABOp) : Reachable s → Reachable (applyOp s op)

/-- Key invariant: every RUNNING test occupies the active-test slot. -/
def RunningIsActive (s : ABState) : Prop :=
  ∀ tid t, s.tests tid = some t → t.status = ABTestStatus.RUNNING →
    s.active_test = some tid

theorem start_test_not_found {s : ABState} {tid : String} {now : Int}
    (h : s.tests tid = none) :
    start_test s tid now =
      Except.error ("Test " ++ tid ++ " not found") := by
  simp only [start_test, h]

theorem start_test_conflict {s : ABState} {tid : String} {t : ABTest}
    {now : Int} (h : s.tests tid = some t)
    (hc : s.active_test.isSome ∧ s.active_test ≠ some tid) :
    start_test s tid now =
      Except.error "Another test is already running" := by
  simp only [start_test, h]
  rw [if_pos hc]

theorem start_test_ok {s : ABState} {tid : String} {t : ABTest} {now : Int}
    (h : s.tests tid = some t)
    (hc : ¬(s.active_test.isSome ∧ s.active_test ≠ some tid)) :
    start_test s tid now = Except.ok
      ({ tests := putTest s tid
           { t with status := ABTestStatus.RUNNING, started_at := some now },
         active_test := some tid },
       { t with status := ABTestStatus.RUNNING, started_at := some now }) := by
  simp only [start_test, h]
  rw [if_neg hc]

theorem conclude_test_not_found {s : ABState} {tid : String}
    {r : ABTestResult} {p : Bool} {now : Int} (h : s.tests tid = none) :
    conclude_test s tid r p now =
      Except.error ("Test " ++ tid ++ " not found") := by
  simp only [conclude_test, h]

theorem conclude_test_ok {s : ABState} {tid : String} {t : ABTest}
    {r : ABTestResult} {p : Bool} {now : Int} (h : s.tests tid = some t) :
    conclude_test s tid r p now = Except.ok
      ({ tests := putTest s tid
           { t with status := ABTestStatus.COMPLETED, result := r,
                    ended_at := some now },
         active_test := if s.active_test = some tid then none
                        else s.active_test },
       { t with status := ABTestStatus.COMPLETED, result := r,
                ended_at := some now }) := by
  simp only [conclude_test, h]

theorem abort_test_not_found {s : ABState} {tid reason : String} {now : Int}
    (h : s.tests tid = none) :
    abort_test s tid reason now =
      Except.error ("Test " ++ tid ++ " not found") := by
  simp only [abort_test, h]

theorem abort_test_ok {s : ABState} {tid reason : String} {t : ABTest}
    {now : Int} (h : s.tests tid = some t) :
    abort_test s tid reason now = Except.ok
      ({ tests := putTest s tid
           { t with status := ABTestStatus.ABORTED, ended_at := some now },
         active_test := if s.active_test = some tid then none
                        else s.active_test },
       { t with status := ABTestStatus.ABORTED, ended_at := some now }) := by
  simp only [abort_test, h]

theorem runningIsActive_applyOp (s : ABState) (op : ABOp)
    (ih : RunningIsActive s) : RunningIsActive (applyOp s op) := by
  cases op with
  | create newId nm champ chal now =>
    intro tid t ht hrun
    simp only [applyOp, create_test] at ht ⊢
    simp only [putTest] at ht
    by_cases he : tid = newId
    · subst he
      rw [if_pos rfl] at ht
      injection ht with ht2
      rw [← ht2] at hrun
      simp at hrun
    · rw [if_neg he] at ht
      exact ih tid t ht hrun
  | start tid0 now =>
    intro tid t ht hrun
    cases hts : s.tests tid0 with
    | none =>
      simp only [applyOp, start_test_not_found hts, afterCall] at ht ⊢
      exact ih tid t ht hrun
    | some t0 =>
      by_cases hc : s.active_test.isSome ∧ s.active_test ≠ some tid0
      · simp only [applyOp, start_test_conflict hts hc, afterCall] at ht ⊢
        exact ih tid t ht hrun
      · simp only [applyOp, start_test_ok hts hc, afterCall] at ht ⊢
        simp only [putTest] at ht
        by_cases he : tid = tid0
        · subst he
          rfl
        · rw [if_neg he] at ht
          have hact := ih tid t ht hrun
          rw [not_and_or] at hc
          cases hc with
          | inl h =>
            rw [hact] at h
            exact absurd rfl h
          | inr h =>
            rw [not_not] at h
            rw [hact] at h
            injection h with h2
            exact absurd h2 he
  | conclude tid0 result promote now =>
    intro tid t ht hrun
    cases hts : s.tests tid0 with
    | none =>
      simp only [applyOp, conclude_test_not_found hts, afterCall] at ht ⊢
      exact ih tid t ht hrun
    | some t0 =>
      simp only [applyOp, conclude_test_ok hts, afterCall] at ht ⊢
      simp only [putTest] at ht
      by_cases he : tid = tid0
      · subst he
        rw [if_pos rfl] at ht
        injection ht with ht2
        rw [← ht2] at hrun
        simp at hrun
      · rw [if_neg he] at ht
        have hact := ih tid t ht hrun
        have hne : (some tid : Option String) ≠ some tid0 := by
          intro hcon
          injection hcon with h2
          exact he h2
        rw [hact, if_neg hne]
  | abort tid0 reason now =>
    intro tid t ht hrun
    cases hts : s.tests tid0 with
    | none =>
      simp only [applyOp, abort_test_not_found hts, afterCall] at ht ⊢
      exact ih tid t ht hrun
    | some t0 =>
      simp only [applyOp, abort_test_ok hts, afterCall] at ht ⊢
      simp only [putTest] at ht
      by_cases he : tid = tid0
      · subst he
        rw [if_pos rfl] at ht
        injection ht with ht2
        rw [← ht2] at hrun
        simp at hrun
      · rw [if_neg he] at ht
        have hact := ih tid t ht hrun
        have hne : (some tid : Option String) ≠ some tid0 := by
          intro hcon
          injection hcon with h2
          exact he h2
        rw [hact, if_neg hne]
  | route tsel draw =>
    intro tid t ht hrun
    simp only [applyOp] at ht ⊢
    cases hsel : tsel.orElse (fun _ => s.active_test) with
    | none =>
      simp only [route_request, hsel] at ht ⊢
      exact ih tid t ht hrun
    | some tid0 =>
      cases hts : s.tests tid0 with
      | none =>
        simp only [route_request, hsel, hts] at ht ⊢
        exact ih tid t ht hrun
      | some t0 =>
        by_cases hns : t0.status ≠ ABTestStatus.RUNNING
        · simp only [route_request, hsel, hts] at ht ⊢
          rw [if_pos hns] at ht ⊢
          exact ih tid t ht hrun
        · by_cases hd : draw * 100 < t0.challenger_traffic_percent
          · simp only [route_request, hsel, hts] at ht ⊢
            rw [if_neg hns, if_pos hd] at ht ⊢
            simp only [putTest] at ht
            by_cases he : tid = tid0
            · subst he
              rw [if_pos rfl] at ht
              injection ht with ht2
              rw [← ht2] at hrun
              exact ih tid t0 hts hrun
            · rw [if_neg he] at ht
              exact ih tid t ht hrun
          · simp only [route_request, hsel, hts] at ht ⊢
            rw [if_neg hns, if_neg hd] at ht ⊢
            simp only [putTest] at ht
            by_cases he : tid = tid0
            · subst he
              rw [if_pos rfl] at ht
              injection ht with ht2
              rw [← ht2] at hrun
              exact ih tid t0 hts hrun
            · rw [if_neg he] at ht
              exact ih tid t ht hrun

theorem reachable_runningIsActive {s : ABState} (h : Reachable s) :
    RunningIsActive s := by
  induction h with
  | init =>
    intro tid t ht _
    cases ht
  | step s2 op _ ih => exact runningIsActive_applyOp s2 op ih

/-- C2: in every reachable service state at most one test is RUNNING;
calling `start_test` while a different test occupies the active slot raises
the conflict error (the source raises before mutating, so the state is
untouched); and aborting the active test clears the slot, after which
starting any existing test succeeds and makes it RUNNING. -/
theorem ab_single_running_invariant :
    (∀ s, Reachable s → ∀ tid1 tid2 t1 t2,
      s.tests tid1 = some t1 → s.tests tid2 = some t2 →
      t1.status = ABTestStatus.RUNNING → t2.status = ABTestStatus.RUNNING →
      tid1 = tid2) ∧
    (∀ (s : ABState) (tid : String) (t : ABTest) (now : Int),
      s.tests tid = some t → s.active_test.isSome →
      s.active_test ≠ some tid →
      start_test s tid now =
        Except.error "Another test is already running") ∧
    (∀ (s : ABState) (tid reason : String) (t : ABTest) (now : Int),
      s.active_test = some tid → s.tests tid = some t →
      ∃ s2 t2, abort_test s tid reason now = Except.ok (s2, t2) ∧
        s2.active_test = none ∧ t2.status = ABTestStatus.ABORTED ∧
        (∀ (tid3 : String) (t3 : ABTest) (now2 : Int),
          s2.tests tid3 = some t3 →
          ∃ r, start_test s2 tid3 now2 = Except.ok r ∧
            r.2.status = ABTestStatus.RUNNING)) := by
  refine ⟨?_, ?_, ?_⟩
  · intro s hs tid1 tid2 t1 t2 h1 h2 hr1 hr2
    have hR := reachable_runningIsActive hs
    have ha1 := hR tid1 t1 h1 hr1
    have ha2 := hR tid2 t2 h2 hr2
    rw [ha1] at ha2
    injection ha2
  · intro s tid t now ht hiso hne
    exact start_test_conflict ht ⟨hiso, hne⟩
  · intro s tid reason t now hact ht
    refine ⟨{ tests := putTest s tid
                { t with status := ABTestStatus.ABORTED,
                         ended_at := some now },
              active_test := none },
            { t with status := ABTestStatus.ABORTED, ended_at := some now },
            ?_, rfl, rfl, ?_⟩
    · rw [abort_test_ok ht, if_pos hact]
    · intro tid3 t3 now2 ht3
      have hc : ¬(Option.isSome (none : Option String) ∧
          (none : Option String) ≠ some tid3) := by
        intro hcon
        simp at hcon
      refine ⟨_, start_test_ok ht3 hc, rfl⟩

/-- The RUNNING test stored after creating and starting test A, for the C2
witness. -/
def c2RunTest : ABTest :=
  { id := "A", name := "tA", champion_model_id := "c1",
    challenger_model_id := "c2", status := ABTestStatus.RUNNING,
    result := ABTestResult.PENDING, created_at := 0, started_at := some 1 }

/-- Reachable state with test A created and started. -/
def c2Reached : ABState :=
  applyOp (applyOp ABState.init (ABOp.create "A" "tA" "c1" "c2" 0))
    (ABOp.start "A" 1)

/-- The DRAFT test B of the C2 witness state. -/
def c2TestB : ABTest :=
  { id := "B", name := "tB", champion_model_id := "c1",
    challenger_model_id := "c3", status := ABTestStatus.DRAFT,
    result := ABTestResult.PENDING, created_at := 0 }

/-- A state with RUNNING test A in the active slot and DRAFT test B. -/
def c2State : ABState :=
  { tests := fun k => if k = "A" then some c2RunTest
             else if k = "B" then some c2TestB else none,
    active_test := some "A" }

/-- Witness for `ab_single_running_invariant` on concrete states: the
uniqueness part at a reachable two-step state, the conflict on starting B
while A runs, and abort-then-restart. -/
theorem ab_single_running_invariant_witness :
    ("A" : String) = "A" ∧
    start_test c2State "B" 7 =
      Except.error "Another test is already running" ∧
    (∃ s2 t2, abort_test c2State "A" "stop" 9 = Except.ok (s2, t2) ∧
      s2.active_test = none ∧ t2.status = ABTestStatus.ABORTED ∧
      (∀ (tid3 : String) (t3 : ABTest) (now2 : Int),
        s2.tests tid3 = some t3 →
        ∃ r, start_test s2 tid3 now2 = Except.ok r ∧
          r.2.status = ABTestStatus.RUNNING)) :=
  ⟨ab_single_running_invariant.1 c2Reached
      (Reachable.step _ _ (Reachable.step _ _ Reachable.init))
      "A" "A" c2RunTest c2RunTest (by decide) (by decide) rfl rfl,
   ab_single_running_invariant.2.1 c2State "B" c2TestB 7
      (by decide) (by decide) (by decide),
   ab_single_running_invariant.2.2 c2State "A" "stop" c2RunTest 9
      rfl (by decide)⟩

/-- State with test A freshly created (DRAFT). -/
def c8S0 : ABState := (create_test ABState.init "A" "tA" "c1" "c2" 0).1

/-- State after also starting test A. -/
def c8S1 : ABState := afterCall (start_test c8S0 "A" 1) c8S0

/-- State after also concluding test A (COMPLETED, slot cleared). -/
def c8S2 : ABState :=
  afterCall (conclude_test c8S1 "A" ABTestResult.CHAMPION_WINS false 2) c8S1

/-- Counterexample to C8 as stated: COMPLETED is not terminal — `start_test`
on the concluded test A succeeds and sets it RUNNING again; and
`conclude_test` succeeds on a DRAFT test (no RUNNING/PAUSED validity check
exists in the source). -/
theorem ab_terminal_counterexample :
    ((c8S2.tests "A").map ABTest.status = some ABTestStatus.COMPLETED) ∧
    (((afterCall (start_test c8S2 "A" 3) c8S2).tests "A").map ABTest.status =
      some ABTestStatus.RUNNING) ∧
    (((afterCall (conclude_test c8S0 "A" ABTestResult.PENDING false 1)
        c8S0).tests "A").map ABTest.status = some ABTestStatus.COMPLETED) := by
  decide

/-- C8 amended: `conclude_test` performs no status check — it succeeds on any
existing test whatever its status, marks it COMPLETED with the given result,
and clears the active slot exactly when that test held it; COMPLETED/ABORTED
are not enforced as terminal, since `start_test` succeeds on such a test
(making it RUNNING again) whenever the active slot is empty or already held
by that test. -/
theorem ab_conclude_amended :
    (∀ (s : ABState) (tid : String) (t : ABTest) (r : ABTestResult)
      (p : Bool) (now : Int), s.tests tid = some t →
      ∃ s2 t2, conclude_test s tid r p now = Except.ok (s2, t2) ∧
        t2.status = ABTestStatus.COMPLETED ∧ t2.result = r ∧
        s2.tests tid = some t2 ∧
        s2.active_test = (if s.active_test = some tid then none
                          else s.active_test)) ∧
    (∀ (s : ABState) (tid : String) (t : ABTest) (now : Int),
      s.tests tid = some t →
      (s.active_test = none ∨ s.active_test = some tid) →
      ∃ s2 t2, start_test s tid now = Except.ok (s2, t2) ∧
        t2.status = ABTestStatus.RUNNING) := by
  constructor
  · intro s tid t r p now ht
    refine ⟨_, _, conclude_test_ok ht, rfl, rfl, ?_, rfl⟩
    show putTest s tid _ tid = _
    unfold putTest
    rw [if_pos rfl]
  · intro s tid t now ht hslot
    have hc : ¬(s.active_test.isSome ∧ s.active_test ≠ some tid) := by
      intro hcon
      cases hslot with
      | inl h => rw [h] at hcon; simp at hcon
      | inr h => exact hcon.2 h
    exact ⟨_, _, start_test_ok ht hc, rfl⟩

/-- Witness for `ab_conclude_amended`: concluding the DRAFT test A and
restarting the COMPLETED test A both succeed. -/
theorem ab_conclude_amended_witness :
    (∃ s2 t2, conclude_test c8S0 "A" ABTestResult.PENDING false 1 =
        Except.ok (s2, t2) ∧
      t2.status = ABTestStatus.COMPLETED ∧ t2.result = ABTestResult.PENDING ∧
      s2.tests "A" = some t2 ∧
      s2.active_test = (if c8S0.active_test = some "A" then none
                        else c8S0.active_test)) ∧
    (∃ s2 t2, start_test c8S2 "A" 3 = Except.ok (s2, t2) ∧
      t2.status = ABTestStatus.RUNNING) :=
  ⟨ab_conclude_amended.1 c8S0 "A"
      { id := "A", name := "tA", champion_model_id := "c1",
        challenger_model_id := "c2", status := ABTestStatus.DRAFT,
        result := ABTestResult.PENDING, created_at := 0 }
      ABTestResult.PENDING false 1 (by decide),
   ab_conclude_amended.2 c8S2 "A"
      { id := "A", name := "tA", champion_model_id := "c1",
        challenger_model_id := "c2", status := ABTestStatus.COMPLETED,
        result := ABTestResult.CHAMPION_WINS, created_at := 0,
        started_at := some 1, ended_at := some 2 }
      3 (by decide) (Or.inl (by decide))⟩

end FraudMLOps
